import Mathlib

/-!
Shallow embedding of the NanoSatellite ground-station core
(`src/ground/src/altair/*.cpp`) and proofs of the frozen claims about it.

Machine integers are modelled as `Nat` (all values involved are bytes or
`u32`; `% 256` / `% 2^32` is applied exactly where the C++ types overflow).
`float` voltages are carried as their 4-byte little-endian bit pattern
(a `Nat`): the ground code only ever memcpy-s those bytes, it never does
floating-point arithmetic on the paths covered here.
-/

/-- Little-endian 32-bit value assembled from four bytes, as the C++
`memcpy` into a `uint32_t` does on the little-endian target. -/
def u32le (b0 b1 b2 b3 : Nat) : Nat :=
  b0 + 256 * b1 + 65536 * b2 + 16777216 * b3

/-- C `isalpha` in the default locale: ASCII letters only. -/
def isCAlpha (c : Nat) : Bool :=
  decide ((65 ≤ c ∧ c ≤ 90) ∨ (97 ≤ c ∧ c ≤ 122))

/-- Record `SensorData` (packet_parser.hpp). `mode` keeps the raw wire
byte; `voltage` keeps the 4-byte little-endian bit pattern of the float. -/
structure SensorData where
  timestamp : Nat
  temp : Nat
  humid : Nat
  light : Nat
  mode : Nat
  voltage : Nat
deriving Repr, DecidableEq, Inhabited

/-- Constant `END_MARK = 0x55` (packet_parser.hpp). -/
def END_MARK : Nat := 85

/-- Constant `PACKET_HEADER_SIZE = 5` (packet_parser.hpp). -/
def PACKET_HEADER_SIZE : Nat := 5

/-- PacketParser::parse_sensor_data (packet_parser.cpp:40-72), translated
field by field: on empty input return the prior record unchanged; else
read `temp,humid,light,mode` at indices 4..7, the voltage bytes at 8..11,
and overwrite `timestamp` from bytes 12..15 only when `len > 15`
(the source guard `len > idx + 3` with `idx = 12`). Out-of-range reads
(undefined behaviour in the C++) are modelled by `getD _ 0`; which indices
the source actually touches is recorded by `sensorAccessedIndices`. -/
def parse_sensor_data (r : List Nat) (d : SensorData) : SensorData :=
  if r.length = 0 then d
  else
    { timestamp :=
        if 15 < r.length then
          u32le (r.getD 12 0) (r.getD 13 0) (r.getD 14 0) (r.getD 15 0)
        else d.timestamp
      temp := r.getD 4 0
      humid := r.getD 5 0
      light := r.getD 6 0
      mode := r.getD 7 0
      voltage := u32le (r.getD 8 0) (r.getD 9 0) (r.getD 10 0) (r.getD 11 0) }

/-- Indices of the input vector that `parse_sensor_data` reads, as a
function of the input length: nothing when empty (the only guard in the
source), indices 4..11 unconditionally otherwise, and 12..15 exactly when
the timestamp guard `len > 15` holds. -/
def sensorAccessedIndices (len : Nat) : List Nat :=
  if len = 0 then []
  else [4, 5, 6, 7, 8, 9, 10, 11] ++ (if 15 < len then [12, 13, 14, 15] else [])

/-- Response-type codes for which `init_response_handlers`
(altair_server.cpp:56-98) registers a handler: TIME_REQUEST 0x10,
SENSOR_LOG 0x11, TOTAL_LOGS 0x12, ACK 0x08, NACK 0x09, EVENT 0x07,
EVENT_LOG 0x14, EVENT_LOG_END 0x15, RESPONSE_CURRENT_TIME 0x18,
BEACON 0x01. -/
def knownType (t : Nat) : Bool :=
  [1, 7, 8, 9, 16, 17, 18, 20, 21, 24].contains t

/-- AltairServer::handle_response (altair_server.cpp:26-54). Returns the
buffer handed to the invoked handler together with the classified
`(response_type, response_id)`; `none` when the frame is rejected as too
short or no handler is registered for its type byte. -/
def handle_response (r : List Nat) : Option (List Nat × Nat × Nat) :=
  if r.length < PACKET_HEADER_SIZE then none
  else
    let r1 := if r.length = 9 then 10 :: r else r
    let t := r1.getD 1 0
    let id := r1.getD 2 0
    if knownType t then some (r1, t, id) else none

/-- One iteration of the AltairServer::listen loop body
(altair_server.cpp:211-252) after a byte `b` was received, acting on the
current accumulator `acc` (`response` in the source). Returns the new
accumulator and the binary frame passed to `handle_response`, if any.
The debug-text branch prints and clears but emits no binary frame. -/
def listenStep (acc : List Nat) (b : Nat) : List Nat × Option (List Nat) :=
  if b = 0 ∧ acc = [] then (acc, none)
  else
    let resp := acc ++ [b]
    let h0 := resp.headD 0
    if isCAlpha h0 || h0 == 10 then
      if b == 10 then ([], none) else (resp, none)
    else
      if b == END_MARK && h0 ≤ resp.length then ([], some resp)
      else (resp, none)

/-- Lookup in the correlator map `m_request_clients`
(`std::unordered_map<uint8_t, client>::find`), modelled as an association
list of `(id, client-handle)` pairs. -/
def mapLookup (m : List (Nat × Nat)) (k : Nat) : Option Nat :=
  (m.find? (fun p => p.1 == k)).map (fun p => p.2)

/-- Erasure `m_request_clients.erase(it)` for the entry with key `k`. -/
def mapErase (m : List (Nat × Nat)) (k : Nat) : List (Nat × Nat) :=
  m.filter (fun p => p.1 != k)

/-- Assignment `m_request_clients[k] = v` (`unordered_map::operator[]`):
overwrite an existing entry, else append a fresh one. -/
def mapInsert (m : List (Nat × Nat)) (k v : Nat) : List (Nat × Nat) :=
  if (m.find? (fun p => p.1 == k)).isSome then
    m.map (fun p => if p.1 == k then (k, v) else p)
  else m ++ [(k, v)]

/-- AltairServer::handle_ack (altair_server.cpp:135-143): if the response
id has a registered client, send it the literal text of the source
(`"Sucess operation"`) and erase the entry; otherwise do nothing.
Returns the new map and the delivered `(client, message)`, if any. -/
def handle_ack (m : List (Nat × Nat)) (id : Nat) :
    List (Nat × Nat) × Option (Nat × String) :=
  match mapLookup m id with
  | some c => (mapErase m id, some (c, "Sucess operation"))
  | none => (m, none)

/-- ServerDataManager::insertSensorData (server_data_manager.cpp:12-30).
`std::lower_bound` on the timestamp-sorted vector returns the first
position whose timestamp is not below `d.timestamp`; on a sorted range
that is the length of the maximal front run of smaller timestamps,
modelled here with `takeWhile`. If that position holds an equal timestamp
the insert is a no-op; either way the function returns `true`. -/
def insertSensorData (l : List SensorData) (d : SensorData) :
    Bool × List SensorData :=
  let pos := (l.takeWhile (fun a => a.timestamp < d.timestamp)).length
  match (l.drop pos).head? with
  | some x =>
      if x.timestamp = d.timestamp then (true, l)
      else (true, l.take pos ++ d :: l.drop pos)
  | none => (true, l.take pos ++ d :: l.drop pos)

/-- Timestamp of `m_sensor_data.back()` (defined only on nonempty lists;
the source checks emptiness first). -/
def lastTimestamp (l : List SensorData) : Nat :=
  (l.getLast?).elim 0 (fun d => d.timestamp)

/-- ServerDataManager::getSensorDataInRange (server_data_manager.cpp:49-85).
`none`-result cases as in the source: empty index, or `start` beyond the
latest stored timestamp. The copy phase first calls
`result.reserve(std::distance(lower, upper))`; when `upper` precedes
`lower` that distance is negative and, converted to `size_t`, exceeds
`max_size()`, so `reserve` throws `std::length_error` (and the iteration
`it != upper` would run off the buffer anyway) — modelled as
`Except.error ()`. Otherwise the slice `[lower, upper)` is returned. -/
def getSensorDataInRange (l : List SensorData) (s e : Nat) :
    Except Unit (Option (List SensorData)) :=
  if l = [] then Except.ok none
  else if lastTimestamp l < s then Except.ok none
  else
    let lb := (l.takeWhile (fun a => a.timestamp < s)).length
    let ub := (l.takeWhile (fun a => a.timestamp ≤ e)).length
    if ub < lb then Except.error ()
    else Except.ok (some ((l.drop lb).take (ub - lb)))

/-- Sortedness invariant of the Sensor Index: timestamps pairwise
non-decreasing (the manager only ever inserts at the lower bound). -/
def SortedByTs (l : List SensorData) : Prop :=
  List.Pairwise (fun a b => a.timestamp ≤ b.timestamp) l

/-- IDGenerator::generateID (id_generator.cpp:19-23): return the current
8-bit counter, post-increment with wrap-around. The state is the counter
value; `% 256` applies the `uint8_t` overflow. -/
def generateID (c : Nat) : Nat × Nat :=
  (c % 256, (c + 1) % 256)

/-- Record `MessagePacket` (packet_parser.hpp). `buffer` is the payload
array; `create_message_packet` never initialises it, so the model carries
its arbitrary (uninitialised) contents as a function from index to byte. -/
structure MessagePacket where
  data_len : Nat
  packetType : Nat
  m_respnse_id : Nat
  checksum : Nat
  buffer : Nat → Nat
  end_mark : Nat

/-- PacketParser::create_message_packet (packet_parser.cpp:173-182):
header-only packet of the given type and id, `data_len = 5`, zero
checksum, end marker `0x55`; the payload buffer keeps whatever `junk`
the uninitialised stack memory holds. -/
def create_message_packet (t id : Nat) (junk : Nat → Nat) : MessagePacket :=
  { data_len := PACKET_HEADER_SIZE, packetType := t, m_respnse_id := id,
    checksum := 0, buffer := junk, end_mark := END_MARK }

/-- AltairServer::send_packet_to_altair (altair_server.cpp:570-592):
serialize `[data_len, type, id, checksum, payload(data_len-5 bytes),
end_mark]` and write it on the link; a response id equal to the reserved
`0xFF` is first replaced by a freshly generated one. Returns the wire
bytes and the new allocator counter. -/
def send_packet_to_altair (gen : Nat) (p : MessagePacket) : List Nat × Nat :=
  let idg := if p.m_respnse_id = 255 then generateID gen else (p.m_respnse_id, gen)
  ([p.data_len, p.packetType, idg.1, p.checksum]
     ++ (List.range (p.data_len - PACKET_HEADER_SIZE)).map p.buffer
     ++ [p.end_mark],
   idg.2)

/-- AltairServer::get_current_time (altair_server.cpp:450-461): build a
REQUEST_CURRENT_TIME (0x17) packet with a freshly generated id, add
`sizeof(uint32_t)` to `data_len` (as the source does), register the
client under the packet id in `m_request_clients`, then serialize and
send. Returns (new allocator counter, new correlator map, wire bytes). -/
def get_current_time (gen : Nat) (m : List (Nat × Nat)) (client : Nat)
    (junk : Nat → Nat) : Nat × List (Nat × Nat) × List Nat :=
  let idg := generateID gen
  let p0 := create_message_packet 23 idg.1 junk
  let p := { p0 with data_len := p0.data_len + 4 }
  let m1 := mapInsert m idg.1 client
  let wire := send_packet_to_altair idg.2 p
  (wire.2, m1, wire.1)

/-- AltairServer::send_value instantiated at T = uint8_t
(altair_server.cpp:554-568): fresh id, `data_len += 1`, write the byte
into `buffer[0]`, send. -/
def send_value_u8 (gen : Nat) (t v : Nat) (junk : Nat → Nat) :
    List Nat × Nat :=
  let idg := generateID gen
  let p0 := create_message_packet t idg.1 junk
  let p := { p0 with data_len := p0.data_len + 1,
                     buffer := fun i => if i = 0 then v else junk i }
  send_packet_to_altair idg.2 p

/-- AltairServer::update_light (altair_server.cpp:544-547): send_value
at type UPDATE_LIGHT = 0x06 with the one-byte light level. -/
def update_light (gen : Nat) (v : Nat) (junk : Nat → Nat) : List Nat × Nat :=
  send_value_u8 gen 6 v junk

/-- Result of `iss >> light_value` for the token following `update_light`:
`some n` when the token parses as an `int`, `none` on extraction failure.
Since C++11 a failed extraction writes 0 into the target variable. -/
def cppExtractedInt (parsed : Option Int) : Int :=
  parsed.getD 0

/-- The `update_light` branch of AltairServer::handle_request
(altair_server.cpp:293-304), translated as is: the source never checks
`iss.fail()` here, it only range-checks the extracted value. Returns
(wire bytes sent on the link if any, text replied to the operator, new
allocator counter). -/
def updateLightBranch (gen : Nat) (junk : Nat → Nat) (parsed : Option Int) :
    Option (List Nat) × String × Nat :=
  let lv := cppExtractedInt parsed
  if 0 ≤ lv ∧ lv ≤ 100 then
    let wire := update_light gen lv.toNat junk
    (some wire.1, "Light updated to " ++ toString lv ++ "%", wire.2)
  else
    (none, "Error: Light value must be between 0 and 100", gen)

/-- Dispatcher state touched by the beacon path: `m_latest_data` and the
Sensor Index vector inside `m_sensor_data_manager`. -/
structure ServerState where
  latest : SensorData
  index : List SensorData
deriving Repr, DecidableEq

/-- AltairServer::handle_beacon (altair_server.cpp:202-206): parse the
frame into `m_latest_data` (in place) and print it; nothing else is
touched. -/
def handle_beacon (st : ServerState) (r : List Nat) : ServerState :=
  { st with latest := parse_sensor_data r st.latest }

/-- C1: for a 9-byte inbound frame, `handle_response` dispatches on the
frame with the byte 10 prepended, so the invoked handler sees a 10-byte
buffer with byte 0 equal to 10 and bytes 1..9 the original frame; any
other frame of length at least 5 is dispatched unchanged. -/
theorem handle_response_length9_compensation (r : List Nat) :
    (r.length = 9 → knownType (r.getD 0 0) = true →
      handle_response r = some (10 :: r, r.getD 0 0, r.getD 1 0) ∧
      (10 :: r).getD 0 0 = 10 ∧ (10 :: r).drop 1 = r ∧
      (10 :: r).length = 10) ∧
    (5 ≤ r.length → r.length ≠ 9 → knownType (r.getD 1 0) = true →
      handle_response r = some (r, r.getD 1 0, r.getD 2 0)) := by
  constructor
  · intro h9 hk
    have hk0 : knownType ((10 :: r).getD 1 0) = true := hk
    refine ⟨?_, rfl, rfl, by simp [h9]⟩
    simp only [handle_response, PACKET_HEADER_SIZE, h9]
    rw [List.getD_eq_getElem?_getD] at hk
    norm_num [hk]
  · intro h5 hne hk
    simp only [handle_response, PACKET_HEADER_SIZE]
    rw [if_neg (by omega), if_neg hne, if_pos hk]

/-- Witness for C1: a concrete 9-byte ACK-typed frame is dispatched with
the synthetic 10 prepended, and a concrete 5-byte frame is dispatched
unchanged. -/
theorem handle_response_length9_compensation_witness :
    handle_response [8, 3, 0, 0, 0, 0, 0, 0, 85] =
      some (10 :: [8, 3, 0, 0, 0, 0, 0, 0, 85], 8, 3) ∧
    handle_response [6, 8, 3, 0, 85] = some ([6, 8, 3, 0, 85], 8, 3) :=
  ⟨((handle_response_length9_compensation [8, 3, 0, 0, 0, 0, 0, 0, 85]).1
      (by decide) (by decide)).1,
   (handle_response_length9_compensation [6, 8, 3, 0, 85]).2
      (by decide) (by decide) (by decide)⟩

/-- C6: handling a BEACON frame rewrites `m_latest_data` with the parsed
reading and leaves the Sensor Index untouched. -/
theorem handle_beacon_index_unchanged (st : ServerState) (r : List Nat) :
    (handle_beacon st r).index = st.index ∧
    (handle_beacon st r).latest = parse_sensor_data r st.latest :=
  ⟨rfl, rfl⟩

/-- C5 (code bug): on a non-numeric `update_light` argument the stream
extraction fails and, since C++11, writes 0 into `light_value`; the
branch never checks `iss.fail()`, so 0 passes the range check and an
UPDATE_LIGHT packet carrying 0 is written to the link with the reply
"Light updated to 0%" — not the error path the spec requires. -/
theorem update_light_parse_failure_sends_packet :
    (updateLightBranch 0 (fun _ => 0) none).1 = some [6, 6, 0, 0, 0, 85] ∧
    (updateLightBranch 0 (fun _ => 0) none).2.1 = "Light updated to 0%" :=
  ⟨rfl, rfl⟩

/-- C9 (code bug): when the allocator hands out 0xFF (its 256th value),
`get_current_time` registers the client under key 255, but
`send_packet_to_altair` replaces the reserved id 255 with a freshly
generated one before writing, so the transmitted response_id byte is 0
and a lookup of the transmitted id finds no pending operator. -/
theorem get_current_time_id255_mismatch :
    (get_current_time 255 [] 7 (fun _ => 0)).2.1 = [(255, 7)] ∧
    ((get_current_time 255 [] 7 (fun _ => 0)).2.2).getD 2 999 = 0 ∧
    mapLookup (get_current_time 255 [] 7 (fun _ => 0)).2.1
      (((get_current_time 255 [] 7 (fun _ => 0)).2.2).getD 2 999) = none :=
  ⟨rfl, rfl, rfl⟩

/-- C4 counterexample: the REQUEST_CURRENT_TIME packet produced by
`get_current_time` (here with allocator counter 0, client 7, zeroed
uninitialised payload memory) has data_len byte 9 and 9 wire bytes, not
the 5 the claim states. -/
theorem get_current_time_wire_not_five :
    (get_current_time 0 [] 7 (fun _ => 0)).2.2 =
      [9, 23, 0, 0, 0, 0, 0, 0, 85] ∧
    ¬((get_current_time 0 [] 7 (fun _ => 0)).2.2).length = 5 ∧
    ¬((get_current_time 0 [] 7 (fun _ => 0)).2.2).headD 0 = 5 :=
  ⟨rfl, by decide, by decide⟩

/-- C4 amended: every `get_current_time` request writes exactly 9 bytes
on the link (the 4 header fields, 4 bytes of reserved-but-unneeded
payload taken from the uninitialised packet buffer, and the end marker),
and its data_len byte is 9 = 5 + sizeof(uint32_t). -/
theorem get_current_time_wire_length (gen client : Nat)
    (m : List (Nat × Nat)) (junk : Nat → Nat) :
    ((get_current_time gen m client junk).2.2).length = 9 ∧
    ((get_current_time gen m client junk).2.2).headD 0 = 9 := by
  simp only [get_current_time, send_packet_to_altair, create_message_packet,
    generateID, PACKET_HEADER_SIZE]
  constructor
  · split <;> simp
  · split <;> rfl

/-- Erasing a key from the correlator map makes a later lookup of that
key fail. -/
theorem mapLookup_mapErase (m : List (Nat × Nat)) (k : Nat) :
    mapLookup (mapErase m k) k = none := by
  unfold mapLookup mapErase
  rw [Option.map_eq_none', List.find?_eq_none]
  intro x hx
  have hmem := (List.mem_filter.mp hx).2
  simp only [bne_iff_ne, ne_eq] at hmem
  simp [hmem]

/-- C3 counterexample: the text the ACK handler actually delivers is the
literal "Sucess operation" of the source, not the claimed "Success
operation". -/
theorem handle_ack_message_text :
    ((handle_ack [(3, 7)] 3).2).map (fun p => p.2) =
      some "Sucess operation" ∧
    "Sucess operation" ≠ "Success operation" :=
  ⟨rfl, by decide⟩

/-- C3 amended: for an ACK whose response id has a registered operator,
the handler delivers exactly "Sucess operation" (the literal in the
source, a misspelling of the claimed text) to that operator and erases the
correlator entry, so the id afterwards resolves to no operator and a
second ACK with the same id delivers nothing. -/
theorem handle_ack_success (m : List (Nat × Nat)) (id c : Nat)
    (h : mapLookup m id = some c) :
    (handle_ack m id).2 = some (c, "Sucess operation") ∧
    mapLookup (handle_ack m id).1 id = none ∧
    handle_ack (handle_ack m id).1 id = ((handle_ack m id).1, none) := by
  have h1 : handle_ack m id = (mapErase m id, some (c, "Sucess operation")) := by
    unfold handle_ack
    rw [h]
  rw [h1]
  refine ⟨rfl, mapLookup_mapErase m id, ?_⟩
  unfold handle_ack
  rw [mapLookup_mapErase]

/-- Witness for C3 amended: with operator 7 registered under id 3, the
ACK delivers to 7, the entry is gone, and a repeat ACK delivers
nothing. -/
theorem handle_ack_success_witness :
    (handle_ack [(3, 7)] 3).2 = some (7, "Sucess operation") ∧
    mapLookup (handle_ack [(3, 7)] 3).1 3 = none ∧
    handle_ack (handle_ack [(3, 7)] 3).1 3 = ((handle_ack [(3, 7)] 3).1, none) :=
  handle_ack_success [(3, 7)] 3 7 (by decide)

/-- C2: while a binary frame is accumulating (first accumulated byte
neither an ASCII letter nor a line feed), one step of the listen loop
emits the frame exactly when the received byte is the end marker 0x55
and the accumulated length including that byte reaches the declared
length prefix; a premature 0x55 is appended and does not terminate the
frame. -/
theorem listenStep_binary_emission (acc : List Nat) (b : Nat)
    (hne : acc ≠ []) (halpha : isCAlpha (acc.headD 0) = false)
    (hlf : acc.headD 0 ≠ 10) :
    ((listenStep acc b).2 = some (acc ++ [b]) ↔
      (b = END_MARK ∧ acc.headD 0 ≤ acc.length + 1)) ∧
    (b = END_MARK → acc.length + 1 < acc.headD 0 →
      listenStep acc b = (acc ++ [b], none)) := by
  obtain ⟨a, t, rfl⟩ : ∃ a t, acc = a :: t := by
    cases acc with
    | nil => exact absurd rfl hne
    | cons a t => exact ⟨a, t, rfl⟩
  simp only [List.headD_cons] at halpha hlf ⊢
  have hstep : listenStep (a :: t) b =
      if b == END_MARK && a ≤ t.length + 2 then ([], some ((a :: t) ++ [b]))
      else ((a :: t) ++ [b], none) := by
    unfold listenStep
    rw [if_neg (by simp)]
    simp only [List.cons_append, List.headD_cons, halpha, Bool.false_or,
      beq_iff_eq, List.length_cons, List.length_append, List.length_cons,
      List.length_nil]
    rw [if_neg (by simp [hlf])]
  constructor
  · rw [hstep]
    by_cases hcond : (b == END_MARK && decide (a ≤ t.length + 2)) = true
    · rw [if_pos hcond]
      simp only [beq_iff_eq, Bool.and_eq_true, decide_eq_true_eq] at hcond
      simp only [List.length_cons]
      constructor
      · intro _
        exact ⟨hcond.1, by omega⟩
      · intro _
        trivial
    · rw [if_neg hcond]
      simp only [beq_iff_eq, Bool.and_eq_true, decide_eq_true_eq,
        not_and_or] at hcond
      simp only [List.length_cons]
      constructor
      · intro h
        exact absurd h (by simp)
      · rintro ⟨h1, h2⟩
        rcases hcond with h | h
        · exact absurd h1 h
        · exact absurd (by omega) h
  · intro hb hlen
    simp only [List.length_cons] at hlen
    rw [hstep, if_neg (by
      simp only [beq_iff_eq, Bool.and_eq_true, decide_eq_true_eq, not_and_or]
      right
      omega)]

/-- On a timestamp-sorted list containing `ts`, the element at the
lower-bound position (first position whose timestamp is not below `ts`)
has timestamp exactly `ts`. -/
theorem lowerBound_head_eq :
    ∀ (l : List SensorData) (ts : Nat),
      List.Pairwise (fun a b => a.timestamp ≤ b.timestamp) l →
      ts ∈ l.map (fun x => x.timestamp) →
      ∃ y, (l.drop (l.takeWhile
          (fun a => a.timestamp < ts)).length).head? = some y ∧
        y.timestamp = ts := by
  intro l
  induction l with
  | nil => simp
  | cons x xs ih =>
      intro ts hp hm
      rw [List.pairwise_cons] at hp
      by_cases hlt : x.timestamp < ts
      · have hmem : ts ∈ xs.map (fun x => x.timestamp) := by
          rcases (by simpa using hm :
              ts = x.timestamp ∨ ∃ a ∈ xs, a.timestamp = ts) with h | h
          · omega
          · simpa using h
        obtain ⟨y, hy, hyts⟩ := ih ts hp.2 hmem
        refine ⟨y, ?_, hyts⟩
        rw [List.takeWhile_cons, if_pos (by simpa using hlt)]
        simpa using hy
      · refine ⟨x, ?_, ?_⟩
        · rw [List.takeWhile_cons, if_neg (by simpa using hlt)]
          simp
        · rcases (by simpa using hm :
              ts = x.timestamp ∨ ∃ a ∈ xs, a.timestamp = ts) with h | h
          · omega
          · obtain ⟨y, hyl, hyts⟩ := h
            have := hp.1 y hyl
            omega

/-- C7: `insertSensorData` returns true on every input, and on a sorted
index already containing the timestamp of the reading it is a no-op: the
index keeps exactly the same contents. -/
theorem insertSensorData_duplicate_noop (l : List SensorData)
    (d : SensorData) :
    (insertSensorData l d).1 = true ∧
    (SortedByTs l → d.timestamp ∈ l.map (fun x => x.timestamp) →
      (insertSensorData l d).2 = l) := by
  constructor
  · unfold insertSensorData
    dsimp only
    split
    · split <;> rfl
    · rfl
  · intro hs hm
    obtain ⟨y, hy, hyts⟩ := lowerBound_head_eq l d.timestamp hs hm
    unfold insertSensorData
    dsimp only
    rw [hy]
    simp [hyts]

/-- Witness for C7: inserting a reading whose timestamp 5 already exists
in the two-element sorted index leaves the index unchanged and reports
success. -/
theorem insertSensorData_duplicate_noop_witness :
    (insertSensorData [⟨5, 0, 0, 0, 0, 0⟩, ⟨9, 0, 0, 0, 0, 0⟩]
        ⟨5, 1, 2, 3, 1, 4⟩).1 = true ∧
    (insertSensorData [⟨5, 0, 0, 0, 0, 0⟩, ⟨9, 0, 0, 0, 0, 0⟩]
        ⟨5, 1, 2, 3, 1, 4⟩).2 =
      [⟨5, 0, 0, 0, 0, 0⟩, ⟨9, 0, 0, 0, 0, 0⟩] :=
  ⟨(insertSensorData_duplicate_noop [⟨5, 0, 0, 0, 0, 0⟩, ⟨9, 0, 0, 0, 0, 0⟩]
      ⟨5, 1, 2, 3, 1, 4⟩).1,
   (insertSensorData_duplicate_noop [⟨5, 0, 0, 0, 0, 0⟩, ⟨9, 0, 0, 0, 0, 0⟩]
      ⟨5, 1, 2, 3, 1, 4⟩).2
     (by simp [SortedByTs]) (by simp)⟩

/-- A pointwise-weaker predicate keeps at least as long a front run. -/
theorem takeWhile_length_mono {α : Type} (p q : α → Bool)
    (h : ∀ a, p a = true → q a = true) :
    ∀ l : List α, (l.takeWhile p).length ≤ (l.takeWhile q).length := by
  intro l
  induction l with
  | nil => simp
  | cons x xs ih =>
      by_cases hx : p x = true
      · rw [List.takeWhile_cons, if_pos hx, List.takeWhile_cons,
          if_pos (h x hx)]
        simpa using ih
      · rw [List.takeWhile_cons, if_neg hx]
        simp

/-- On a timestamp-sorted list, the elements from the lower bound of `s`
up to the upper bound of `e` are exactly those with timestamp in
`[s, e]`. -/
theorem slice_eq_filter (s e : Nat) :
    ∀ l : List SensorData,
      List.Pairwise (fun a b => a.timestamp ≤ b.timestamp) l →
      (l.drop (l.takeWhile (fun a => a.timestamp < s)).length).take
        ((l.takeWhile (fun a => a.timestamp ≤ e)).length -
          (l.takeWhile (fun a => a.timestamp < s)).length) =
      l.filter (fun a => decide (s ≤ a.timestamp) &&
        decide (a.timestamp ≤ e)) := by
  intro l
  induction l with
  | nil => simp
  | cons x xs ih =>
      intro hp
      rw [List.pairwise_cons] at hp
      have ihx := ih hp.2
      simp only [List.takeWhile_cons, decide_eq_true_eq]
      by_cases h1 : x.timestamp < s
      · by_cases h2 : x.timestamp ≤ e
        · rw [if_pos h1, if_pos h2]
          simp only [List.length_cons, List.drop_succ_cons,
            Nat.succ_sub_succ]
          have hpred : ¬((fun a => decide (s ≤ a.timestamp) &&
              decide (a.timestamp ≤ e)) x = true) := by
            simp only [Bool.and_eq_true, decide_eq_true_eq, not_and]
            omega
          rw [List.filter_cons, if_neg hpred]
          exact ihx
        · rw [if_pos h1, if_neg h2]
          simp only [List.length_cons, List.length_nil, Nat.zero_sub,
            List.take_zero]
          symm
          rw [List.filter_eq_nil_iff]
          intro a ha
          rcases List.mem_cons.mp ha with h | h
          · subst h
            simp only [Bool.and_eq_true, decide_eq_true_eq, not_and]
            omega
          · have := hp.1 a h
            simp only [Bool.and_eq_true, decide_eq_true_eq, not_and]
            omega
      · by_cases h2 : x.timestamp ≤ e
        · rw [if_neg h1, if_pos h2]
          simp only [List.length_nil, List.length_cons, List.drop_zero,
            Nat.sub_zero]
          have hpred : (fun a => decide (s ≤ a.timestamp) &&
              decide (a.timestamp ≤ e)) x = true := by
            simp only [Bool.and_eq_true, decide_eq_true_eq]
            omega
          rw [List.take_succ_cons, List.filter_cons, if_pos hpred]
          congr 1
          have hlb : (xs.takeWhile (fun a => a.timestamp < s)).length = 0 := by
            cases xs with
            | nil => rfl
            | cons y ys =>
                have hxy := hp.1 y (List.mem_cons_self y ys)
                have hc : ¬((fun a => decide (a.timestamp < s)) y = true) := by
                  simp only [decide_eq_true_eq]
                  omega
                rw [List.takeWhile_cons, if_neg hc]
                rfl
          rw [hlb] at ihx
          simpa using ihx
        · rw [if_neg h1, if_neg h2]
          simp only [List.length_nil, Nat.zero_sub, List.take_zero]
          symm
          rw [List.filter_eq_nil_iff]
          intro a ha
          rcases List.mem_cons.mp ha with h | h
          · subst h
            simp only [Bool.and_eq_true, decide_eq_true_eq, not_and]
            omega
          · have := hp.1 a h
            simp only [Bool.and_eq_true, decide_eq_true_eq, not_and]
            omega

/-- C8 counterexample: on the sorted index with timestamps 5 and 10 and
the reversed query range (start 6, end 4), the index is non-empty and
start does not exceed the latest timestamp, yet the function does not
return a slice: lower_bound(6) lies after upper_bound(4), the iterator
distance is negative, and the reserve call faults. -/
theorem getSensorDataInRange_reversed_range_faults :
    getSensorDataInRange [⟨5, 0, 0, 0, 0, 0⟩, ⟨10, 0, 0, 0, 0, 0⟩] 6 4 =
      Except.error () ∧
    ¬(([⟨5, 0, 0, 0, 0, 0⟩, ⟨10, 0, 0, 0, 0, 0⟩] : List SensorData) = [] ∨
      lastTimestamp [⟨5, 0, 0, 0, 0, 0⟩, ⟨10, 0, 0, 0, 0, 0⟩] < 6) :=
  ⟨rfl, by decide⟩

/-- C8 amended: for start ≤ end (where the lower bound cannot pass the
upper bound), `getSensorDataInRange` returns the empty option exactly
when the index is empty or start exceeds the latest stored timestamp,
and otherwise the contiguous slice of readings with timestamps in
`[start, end]`, in non-decreasing timestamp order. -/
theorem getSensorDataInRange_range_spec (l : List SensorData) (s e : Nat)
    (hs : SortedByTs l) (hse : s ≤ e) :
    getSensorDataInRange l s e =
      Except.ok (if l = [] ∨ lastTimestamp l < s then none
        else some (l.filter (fun a => decide (s ≤ a.timestamp) &&
          decide (a.timestamp ≤ e)))) ∧
    List.Pairwise (fun a b => a.timestamp ≤ b.timestamp)
      (l.filter (fun a => decide (s ≤ a.timestamp) &&
        decide (a.timestamp ≤ e))) := by
  unfold SortedByTs at hs
  constructor
  · unfold getSensorDataInRange
    by_cases h0 : l = []
    · rw [if_pos h0, if_pos (Or.inl h0)]
    · rw [if_neg h0]
      by_cases h1 : lastTimestamp l < s
      · rw [if_pos h1, if_pos (Or.inr h1)]
      · rw [if_neg h1]
        have hne : ¬(l = [] ∨ lastTimestamp l < s) := by
          push_neg
          exact ⟨h0, by omega⟩
        rw [if_neg hne]
        have hmono : (l.takeWhile (fun a => a.timestamp < s)).length ≤
            (l.takeWhile (fun a => a.timestamp ≤ e)).length :=
          takeWhile_length_mono _ _
            (fun a ha => by simp at ha ⊢; omega) l
        have hnlt : ¬((l.takeWhile (fun a => a.timestamp ≤ e)).length <
            (l.takeWhile (fun a => a.timestamp < s)).length) := by
          omega
        rw [if_neg hnlt, slice_eq_filter s e l hs]
  · exact hs.sublist (List.filter_sublist l)

/-- Witness for C8 amended: on the sorted index with timestamps 5 and 10
the query [4, 7] returns exactly the timestamp-5 reading. -/
theorem getSensorDataInRange_range_spec_witness :
    getSensorDataInRange [⟨5, 0, 0, 0, 0, 0⟩, ⟨10, 0, 0, 0, 0, 0⟩] 4 7 =
      Except.ok (some [⟨5, 0, 0, 0, 0, 0⟩]) := by
  have h := getSensorDataInRange_range_spec
    [⟨5, 0, 0, 0, 0, 0⟩, ⟨10, 0, 0, 0, 0, 0⟩] 4 7
    (by simp [SortedByTs]) (by omega)
  rw [h.1]
  rfl

/-- C10: `parse_sensor_data` performs only in-bounds reads exactly when
the input is empty or at least 12 bytes long (the source only guards
against emptiness, so every non-empty shorter input reaches an
out-of-bounds read); the timestamp is overwritten only for inputs of
length at least 16 and otherwise keeps its prior value, while the five
other fields are written for every non-empty input. -/
theorem parse_sensor_data_access_bounds (r : List Nat) (d : SensorData) :
    ((∀ i ∈ sensorAccessedIndices r.length, i < r.length) ↔
      (r.length = 0 ∨ 12 ≤ r.length)) ∧
    (r.length < 16 → (parse_sensor_data r d).timestamp = d.timestamp) ∧
    (16 ≤ r.length →
      (parse_sensor_data r d).timestamp =
        u32le (r.getD 12 0) (r.getD 13 0) (r.getD 14 0) (r.getD 15 0)) ∧
    (r ≠ [] →
      (parse_sensor_data r d).temp = r.getD 4 0 ∧
      (parse_sensor_data r d).humid = r.getD 5 0 ∧
      (parse_sensor_data r d).light = r.getD 6 0 ∧
      (parse_sensor_data r d).mode = r.getD 7 0 ∧
      (parse_sensor_data r d).voltage =
        u32le (r.getD 8 0) (r.getD 9 0) (r.getD 10 0) (r.getD 11 0)) := by
  refine ⟨?_, ?_, ?_, ?_⟩
  · unfold sensorAccessedIndices
    by_cases h0 : r.length = 0
    · simp [h0]
    · by_cases h15 : 15 < r.length
      · rw [if_neg h0, if_pos h15]
        simp only [List.mem_append, List.mem_cons, List.not_mem_nil, or_false]
        constructor
        · intro h
          omega
        · intro h i hi
          omega
      · rw [if_neg h0, if_neg h15]
        simp only [List.append_nil, List.mem_cons, List.not_mem_nil, or_false]
        constructor
        · intro h
          have h11 := h 11 (by simp)
          omega
        · intro h i hi
          omega
  · intro hlt
    unfold parse_sensor_data
    by_cases h0 : r.length = 0
    · rw [if_pos h0]
    · rw [if_neg h0]
      dsimp only
      rw [if_neg (by omega)]
  · intro h16
    unfold parse_sensor_data
    rw [if_neg (by omega)]
    dsimp only
    rw [if_pos (by omega)]
  · intro hne
    have h0 : ¬ r.length = 0 := by simpa using hne
    unfold parse_sensor_data
    rw [if_neg h0]
    exact ⟨rfl, rfl, rfl, rfl, rfl⟩

/-- Witness for C10: a length-3 input leaves the prior timestamp 77 in
place, while a length-16 input overwrites the timestamp from bytes
12..15 and writes temp from byte 4. -/
theorem parse_sensor_data_access_bounds_witness :
    (parse_sensor_data [1, 2, 3] ⟨77, 0, 0, 0, 0, 0⟩).timestamp = 77 ∧
    (parse_sensor_data (List.range 16) ⟨77, 0, 0, 0, 0, 0⟩).timestamp =
      u32le ((List.range 16).getD 12 0) ((List.range 16).getD 13 0)
        ((List.range 16).getD 14 0) ((List.range 16).getD 15 0) ∧
    (parse_sensor_data (List.range 16) ⟨77, 0, 0, 0, 0, 0⟩).temp =
      (List.range 16).getD 4 0 :=
  ⟨(parse_sensor_data_access_bounds [1, 2, 3] ⟨77, 0, 0, 0, 0, 0⟩).2.1
      (by decide),
   (parse_sensor_data_access_bounds (List.range 16) ⟨77, 0, 0, 0, 0, 0⟩).2.2.1
      (by decide),
   ((parse_sensor_data_access_bounds (List.range 16)
        ⟨77, 0, 0, 0, 0, 0⟩).2.2.2 (by decide)).1⟩

/-- Witness for C2: the accumulator [3, 1] (declared length 3) emits on a
timely 0x55, while [5, 1] (declared length 5) swallows a premature 0x55
without emitting. -/
theorem listenStep_binary_emission_witness :
    (listenStep [3, 1] 85).2 = some [3, 1, 85] ∧
    listenStep [5, 1] 85 = ([5, 1, 85], none) :=
  ⟨((listenStep_binary_emission [3, 1] 85 (by decide) (by decide)
        (by decide)).1).mpr (by decide),
   (listenStep_binary_emission [5, 1] 85 (by decide) (by decide)
        (by decide)).2 rfl (by decide)⟩
